import Mathlib

/-!
Verification development for the Overseer tool-resolution and
analysis-orchestration engine.

The repository code lives in `overseer/utils.py`, `overseer/analysis.py`,
`overseer/report.py` and `overseer/gui.py`.  The Python functions below are
shallowly embedded as pure Lean functions.  All interaction with the host
environment (filesystem queries, `platform.system()`, `os.environ`,
`os.path` helpers) is packaged in an explicit `Env` record which models the
host state captured at call time, so every embedded function is a pure
function of its arguments and that snapshot.
-/

/-- Host environment snapshot visible to `utils.py`.
`isfile` models `os.path.isfile` on the filesystem snapshot at call time;
`isabs` models `os.path.isabs`; `system` models `platform.system()`;
`pathEnv` models the result of splitting `os.environ.get("PATH", "")` on
`os.pathsep`; `home` models `str(Path.home())`; `scriptCwd` models the
module-level `script_cwd` constant; `join` models path joining as done by
`os.path.join` and by the `pathlib` division operator. -/
structure Env where
  isfile : String → Bool
  isabs : String → Bool
  system : String
  pathEnv : List String
  home : String
  scriptCwd : String
  join : String → String → String

/-- Python truthiness of an `Optional[str]` value: `None` and the empty
string are falsy, every other string is truthy. -/
def pyTruthy : Option String → Bool
  | none => false
  | some s => !(s == "")

/-- Embedding of Python `str.lower` as used on the tool name in
`find_tool`: lower-case every character.  (Equivalent to `String.toLower`,
defined by structural recursion so that concrete instances evaluate.) -/
def pyLower (s : String) : String :=
  String.mk (s.toList.map Char.toLower)

/-- Embedding of `utils.file_exists`: the path is not `None` and
`os.path.isfile` holds on it. -/
def file_exists (env : Env) : Option String → Bool
  | none => false
  | some p => env.isfile p

/-- Python `s.strip(c)` for the double-quote character: drop every leading
and trailing `"` character.  Used on each PATH entry in `find_tool`. -/
def stripQuotes (s : String) : String :=
  String.mk (((s.toList.dropWhile (fun c => c == '\"')).reverse.dropWhile
    (fun c => c == '\"')).reverse)

/-- The platform executable suffix set used by `utils.find_tool`:
`[".exe", ".bat"]` on Windows, `["", ".sh"]` elsewhere. -/
def extensionsFor (env : Env) : List String :=
  if env.system == "Windows" then [".exe", ".bat"] else ["", ".sh"]

/-- Embedding of `str(home / "Desktop" / "Tools" / p₁ / ... / pₙ)` used in
the default-location table. -/
def desktopTools (env : Env) (parts : List String) : String :=
  parts.foldl env.join (env.join (env.join env.home "Desktop") "Tools")

/-- Embedding of `utils.get_default_tool_locations`.  The Python function
builds a dict with eleven keys (in the insertion order below), each
initialised to `[]`, then overwrites entries depending on
`platform.system()`.  Each branch below lists the resulting value of every
key of that dict, in its insertion order. -/
def get_default_tool_locations (env : Env) : List (String × List String) :=
  if env.system == "Windows" then
    [ ("capa",
       [ "C:\\Program Files\\capa\\capa.exe",
         "C:\\Tools\\capa\\capa.exe",
         desktopTools env ["capa", "capa.exe"] ]),
      ("yara",
       [ "C:\\Program Files\\yara\\yara64.exe",
         "C:\\Tools\\yara\\yara64.exe",
         desktopTools env ["yara", "yara64.exe"] ]),
      ("exiftool",
       [ "C:\\Program Files\\exiftool\\exiftool.exe",
         "C:\\Tools\\exiftool\\exiftool.exe",
         desktopTools env ["exiftool", "exiftool.exe"] ]),
      ("die",
       [ "C:\\Program Files\\DIE\\die.exe",
         "C:\\Tools\\DIE\\die.exe",
         desktopTools env ["DIE", "die.exe"],
         desktopTools env ["Detect-it-Easy", "die.exe"] ]),
      ("floss",
       [ "C:\\Program Files\\floss\\floss.exe",
         "C:\\Tools\\floss\\floss.exe",
         desktopTools env ["floss", "floss.exe"] ]),
      ("resourcehacker",
       [ "C:\\Program Files\\Resource Hacker\\ResourceHacker.exe",
         "C:\\Tools\\ResourceHacker\\ResourceHacker.exe",
         desktopTools env ["ResourceHacker", "ResourceHacker.exe"] ]),
      ("binwalk",
       [ "C:\\Program Files\\binwalk\\binwalk.exe",
         "C:\\Tools\\binwalk\\binwalk.exe",
         desktopTools env ["binwalk", "binwalk.exe"] ]),
      ("fakenet",
       [ "C:\\Program Files\\FakeNet-NG\\fakenet.exe",
         "C:\\Tools\\FakeNet-NG\\fakenet.exe",
         desktopTools env ["FakeNet-NG", "fakenet.exe"] ]),
      ("procdump",
       [ "C:\\Program Files\\SysinternalsSuite\\procdump.exe",
         "C:\\Tools\\SysinternalsSuite\\procdump.exe",
         "C:\\Tools\\procdump\\procdump.exe",
         desktopTools env ["SysinternalsSuite", "procdump.exe"] ]),
      ("procmon",
       [ "C:\\Program Files\\SysinternalsSuite\\Procmon.exe",
         "C:\\Tools\\SysinternalsSuite\\Procmon.exe",
         "C:\\Tools\\Procmon\\Procmon.exe",
         desktopTools env ["SysinternalsSuite", "Procmon.exe"] ]),
      ("ttd",
       [ "C:\\Program Files\\Windows Kits\\10\\Debuggers\\x64\\TTD\\TTD.exe",
         "C:\\Tools\\TTD\\TTD.exe",
         desktopTools env ["TTD", "TTD.exe"] ]) ]
  else if env.system == "Darwin" then
    [ ("capa",
       [ "/usr/local/bin/capa", "/opt/homebrew/bin/capa",
         desktopTools env ["capa", "capa"] ]),
      ("yara",
       [ "/usr/local/bin/yara", "/opt/homebrew/bin/yara",
         desktopTools env ["yara", "yara"] ]),
      ("exiftool",
       [ "/usr/local/bin/exiftool", "/opt/homebrew/bin/exiftool",
         desktopTools env ["exiftool", "exiftool"] ]),
      ("die", []), ("floss", []), ("resourcehacker", []),
      ("binwalk",
       [ "/usr/local/bin/binwalk", "/opt/homebrew/bin/binwalk",
         desktopTools env ["binwalk", "binwalk"] ]),
      ("fakenet", []), ("procdump", []), ("procmon", []), ("ttd", []) ]
  else if env.system == "Linux" then
    [ ("capa",
       [ "/usr/local/bin/capa", "/usr/bin/capa",
         desktopTools env ["capa", "capa"] ]),
      ("yara",
       [ "/usr/local/bin/yara", "/usr/bin/yara",
         desktopTools env ["yara", "yara"] ]),
      ("exiftool",
       [ "/usr/local/bin/exiftool", "/usr/bin/exiftool",
         desktopTools env ["exiftool", "exiftool"] ]),
      ("die", []), ("floss", []), ("resourcehacker", []),
      ("binwalk",
       [ "/usr/local/bin/binwalk", "/usr/bin/binwalk",
         desktopTools env ["binwalk", "binwalk"] ]),
      ("fakenet", []), ("procdump", []), ("procmon", []), ("ttd", []) ]
  else
    [ ("capa", []), ("yara", []), ("exiftool", []), ("die", []),
      ("floss", []), ("resourcehacker", []), ("binwalk", []),
      ("fakenet", []), ("procdump", []), ("procmon", []), ("ttd", []) ]

/-- The PATH-environment candidates probed by `find_tool`: for each entry of
the split PATH (in order), each platform suffix (in order) appended to the
tool's base name, joined with `os.path.join` after stripping surrounding
double quotes from the directory. -/
def path_candidates (env : Env) (tool_name : String) : List String :=
  env.pathEnv.flatMap (fun path =>
    (extensionsFor env).map (fun ext =>
      env.join (stripQuotes path) (tool_name ++ ext)))

/-- The default-location candidates probed by `find_tool`: the table entry
for the lower-cased tool name, or nothing when the tool has no entry. -/
def default_candidates (env : Env) (tool_name_lower : String) : List String :=
  match (get_default_tool_locations env).lookup tool_name_lower with
  | some locs => locs
  | none => []

/-- The script-directory candidates probed by `find_tool`: the program's own
installation directory joined with the tool's base name plus each platform
suffix. -/
def local_candidates (env : Env) (tool_name : String) : List String :=
  (extensionsFor env).map (fun ext =>
    env.join env.scriptCwd (tool_name ++ ext))

/-- Embedding of `utils.find_tool` from its PATH loop onward (source lines
175-202): probe the PATH candidates, then the default-location candidates
for the lower-cased name, then the script-directory candidates, returning
the first probed path for which `file_exists` holds. -/
def search_tool (env : Env) (tool_name : String) : Option String :=
  match (path_candidates env tool_name).find? env.isfile with
  | some p => some p
  | none =>
    match (default_candidates env (pyLower tool_name)).find? env.isfile with
    | some p => some p
    | none => (local_candidates env tool_name).find? env.isfile

/-- Application of `os.path.isabs` to an `Optional[str]` value, as in the
defensive re-check of `find_tool`; `None` is treated as not absolute (the
re-check guards with truthiness first, so this case is never reached with a
truthy path). -/
def optIsabs (env : Env) : Option String → Bool
  | none => false
  | some s => env.isabs s

/-- Embedding of `utils.find_tool`.  First the custom path is returned when
it is truthy and exists; then the defensive absolute-path re-check (source
lines 170-173) returns it when it is truthy, absolute and exists; otherwise
the search over PATH, default locations and the script directory runs.  The
Python function cannot raise: every probe is a boolean filesystem test, and
a total miss returns `None`, embedded here as `none`. -/
def find_tool (env : Env) (tool_name : String)
    (custom_path : Option String) : Option String :=
  if pyTruthy custom_path && file_exists env custom_path then
    custom_path
  else if pyTruthy custom_path && optIsabs env custom_path
      && file_exists env custom_path then
    custom_path
  else
    search_tool env tool_name

/-- Variant of `find_tool` with the defensive absolute-path re-check
(source lines 170-173) removed, used to state its redundancy. -/
def find_tool_no_recheck (env : Env) (tool_name : String)
    (custom_path : Option String) : Option String :=
  if pyTruthy custom_path && file_exists env custom_path then
    custom_path
  else
    search_tool env tool_name

/-- The full ordered candidate list behind `search_tool`: PATH candidates,
then the default-location entry for the lower-cased name, then the
script-directory candidates. -/
def candidate_list (env : Env) (tool_name : String) : List String :=
  path_candidates env tool_name
    ++ default_candidates env (pyLower tool_name)
    ++ local_candidates env tool_name

/-- Embedding of the `procmon_settings` mapping consumed by
`analysis.start_analysis_from_config` (keys `enabled`, `duration`,
`disable_timer`). -/
structure ProcmonSettings where
  enabled : Bool
  duration : String
  disable_timer : Bool
deriving DecidableEq, Repr

/-- Embedding of the `binary` mapping of the configuration (keys `path`,
`run`, `as_admin`, `bin_pass`). -/
structure BinaryConfig where
  path : String
  run : Bool
  as_admin : Bool
  bin_pass : String
deriving DecidableEq, Repr

/-- Embedding of the analysis configuration dict consumed by
`analysis.start_analysis_from_config`.  The `static_tools` and
`dynamic_tools` dicts are association lists kept in dict insertion order;
`paths` and `vm` are kept as opaque key-value lists since the builder only
passes them through. -/
structure AnalysisConfig where
  paths : List (String × String)
  static_tools : List (String × Bool)
  dynamic_tools : List (String × Bool)
  procmon_settings : ProcmonSettings
  binary : BinaryConfig
  vm : Option (List (String × String))
deriving DecidableEq, Repr

/-- Embedding of the summary dict returned by
`analysis.start_analysis_from_config`: the enabled static and dynamic tool
names in configuration order, and the pass-through settings. -/
structure AnalysisSummary where
  static_tools : List String
  dynamic_tools : List String
  procmon : ProcmonSettings
  binary : BinaryConfig
  vm : Option (List (String × String))
  paths : List (String × String)
deriving DecidableEq, Repr

/-- Embedding of `analysis.start_analysis_from_config` (the Run Plan
builder).  The `env` argument is the host snapshot available to the module;
the body never consults it, mirroring the source, which filters the two
tool dicts by their enabled flags and returns the summary without calling
`find_tool` or any other filesystem probe that affects the return value.
The source's side effects (directory creation, status reporting) and its
config-file loading branch do not influence the returned dict and are not
modelled. -/
def start_analysis_from_config (env : Env) (config : AnalysisConfig) :
    AnalysisSummary :=
  { static_tools := (config.static_tools.filter (fun p => p.2)).map (fun p => p.1)
    dynamic_tools := (config.dynamic_tools.filter (fun p => p.2)).map (fun p => p.1)
    procmon := config.procmon_settings
    binary := config.binary
    vm := config.vm
    paths := config.paths }

/-- Embedding of `analysis.launch_procmon`, returning the command line
string handed to `subprocess.Popen`.  The quoted executable, the
`/BackingFile` flag with the quoted capture file, and the `/Quiet` and
`/Minimized` flags are always present; the `/LoadConfig` flag with the
quoted config file is appended exactly when `use_pmc` is set and the config
file exists. -/
def launch_procmon (env : Env) (procmonexe pml_file : String)
    (use_pmc : Bool) (pmc_file : Option String) : String :=
  let cmdline := "\"" ++ procmonexe ++ "\" /BackingFile \"" ++ pml_file
    ++ "\" /Quiet /Minimized"
  if use_pmc && file_exists env pmc_file then
    cmdline ++ " /LoadConfig \"" ++ pmc_file.getD "" ++ "\""
  else
    cmdline

/-- Checked state of the two mutually exclusive dynamic-tool checkboxes the
GUI handler `gui.handle_procmon_ttd_exclusion` touches. -/
structure DynamicChecks where
  procmon : Bool
  ttd : Bool
deriving DecidableEq, Repr

/-- Embedding of `gui.handle_procmon_ttd_exclusion`: when a checkbox
reaches the Qt checked state (2), the opposite checkbox of the
Procmon/TTD pair is unchecked. -/
def handle_procmon_ttd_exclusion (st : DynamicChecks) (state : Nat)
    (source : String) : DynamicChecks :=
  if state == 2 then
    if source == "Procmon" then { st with ttd := false }
    else if source == "TTD" then { st with procmon := false }
    else st
  else st

/-- Embedding of the `binary` entry of the analysis-results dict consumed
by `report.ReportGenerator.generate_report` (keys `name` and `path`, both
optional under Python `dict.get`). -/
structure ResultsBinary where
  name : Option String
  path : Option String
deriving DecidableEq, Repr

/-- Embedding of the analysis-results dict consumed by the report
generator.  Per-tool payloads are kept as opaque strings; the generator
renders them without inspecting their structure. -/
structure AnalysisResults where
  binary : Option ResultsBinary
  static_results : List (String × String)
  dynamic_results : List (String × String)
  procmon_results : List (String × String)
deriving DecidableEq, Repr

/-- Embedding of `analysis_results.get("binary", {}).get("name", "unknown")`
from `report.ReportGenerator.generate_report`. -/
def reportBinaryName (results : AnalysisResults) : String :=
  match results.binary with
  | none => "unknown"
  | some b => b.name.getD "unknown"

/-- The report artifact path `<analysis_dir>/reports/<binary>_<timestamp><ext>`
built by the private render helpers of `report.ReportGenerator`. -/
def report_path (analysis_dir binary_name timestamp ext : String) : String :=
  analysis_dir ++ "/reports/" ++ binary_name ++ "_" ++ timestamp ++ ext

/-- Embedding of `report.ReportGenerator.generate_report`.  `timestamp`
models the `datetime.now().strftime(...)` value sampled at the start of the
call.  The result pairs the Python return or raised error with the list of
artifact files the call writes: each supported format writes exactly its
one artifact and returns its path, while an unsupported format raises
`ValueError("Unsupported report format: <fmt>")` before any file is
written.  The rendered file contents are not modelled; only the dispatch,
the artifact paths and the write set are. -/
def generate_report (analysis_dir : String) (results : AnalysisResults)
    (timestamp : String) (report_format : String) :
    Except String String × List String :=
  let binary_name := reportBinaryName results
  if report_format == "json" then
    let p := report_path analysis_dir binary_name timestamp ".json"
    (Except.ok p, [p])
  else if report_format == "markdown" then
    let p := report_path analysis_dir binary_name timestamp ".md"
    (Except.ok p, [p])
  else if report_format == "docx" then
    let p := report_path analysis_dir binary_name timestamp ".docx"
    (Except.ok p, [p])
  else
    (Except.error ("Unsupported report format: " ++ report_format), [])

/-- Concrete Linux host snapshot used by the witnesses: exactly one file,
`/opt/tools/capa`, exists. -/
def envLin : Env :=
  { isfile := fun s => s == "/opt/tools/capa"
    isabs := fun s => s.startsWith "/"
    system := "Linux"
    pathEnv := ["/usr/bin"]
    home := "/home/analyst"
    scriptCwd := "/opt/overseer"
    join := fun a b => a ++ "/" ++ b }

/-- Host snapshot on which no path is an existing file: every tool
resolution misses. -/
def envNoFiles : Env :=
  { isfile := fun _ => false
    isabs := fun s => s.startsWith "/"
    system := "Linux"
    pathEnv := ["/usr/bin"]
    home := "/home/analyst"
    scriptCwd := "/opt/overseer"
    join := fun a b => a ++ "/" ++ b }

/-- Host snapshot on which every path is an existing file: every tool
resolution succeeds. -/
def envAllFiles : Env :=
  { envNoFiles with isfile := fun _ => true }

/-- Helper: `search_tool` is the first existing entry of the flattened
ordered candidate list. -/
theorem search_tool_eq_find (env : Env) (tool_name : String) :
    search_tool env tool_name
      = (candidate_list env tool_name).find? env.isfile := by
  unfold search_tool candidate_list
  rw [List.find?_append, List.find?_append]
  cases h1 : (path_candidates env tool_name).find? env.isfile with
  | some p => rfl
  | none =>
    cases h2 : (default_candidates env (pyLower tool_name)).find? env.isfile with
    | some p => rfl
    | none => rfl

/-- Helper: when the first custom-path check of `find_tool` fails, the
defensive re-check fails as well, since its conjuncts include the same
truthiness and existence tests. -/
theorem recheck_false_of_custom_false (env : Env) (custom_path : Option String)
    (h : (pyTruthy custom_path && file_exists env custom_path) = false) :
    (pyTruthy custom_path && optIsabs env custom_path
      && file_exists env custom_path) = false := by
  cases hp : pyTruthy custom_path with
  | false => simp [hp]
  | true =>
    have hf : file_exists env custom_path = false := by simpa [hp] using h
    simp [hf]

/-- C2: for every tool name and every custom path that points to an
existing regular file (a nonempty path on which the snapshot's `isfile`
holds — `os.path.isfile` is never true of the empty string), `find_tool`
returns exactly that custom path, for every environment, hence regardless
of the PATH list and of the default-location table. -/
theorem find_tool_custom_wins (env : Env) (tool_name p : String)
    (hne : p ≠ "") (hf : env.isfile p = true) :
    find_tool env tool_name (some p) = some p := by
  unfold find_tool
  have h1 : (pyTruthy (some p) && file_exists env (some p)) = true := by
    simp [pyTruthy, file_exists, hf, hne]
  simp [h1]

/-- Witness for `find_tool_custom_wins` at the concrete snapshot `envLin`
and the existing file `/opt/tools/capa`. -/
theorem find_tool_custom_wins_witness :
    ("/opt/tools/capa" : String) ≠ ""
    ∧ envLin.isfile "/opt/tools/capa" = true
    ∧ find_tool envLin "capa" (some "/opt/tools/capa")
        = some "/opt/tools/capa" :=
  ⟨by decide, by decide,
   find_tool_custom_wins envLin "capa" "/opt/tools/capa" (by decide) (by decide)⟩

/-- C3: when the custom path does not exist and no candidate location
(PATH entries with every platform suffix, the default-location entries for
the tool, and the script directory with every platform suffix) is an
existing file, `find_tool` returns `none`.  The embedding is a total
function, mirroring that the Python function performs only boolean
filesystem probes and cannot raise: `None` is its normal miss value. -/
theorem find_tool_not_found (env : Env) (tool_name : String)
    (custom_path : Option String)
    (hc : file_exists env custom_path = false)
    (hall : ∀ c ∈ candidate_list env tool_name, env.isfile c = false) :
    find_tool env tool_name custom_path = none := by
  unfold find_tool
  have h1 : (pyTruthy custom_path && file_exists env custom_path) = false := by
    simp [hc]
  have h3 : (candidate_list env tool_name).find? env.isfile = none :=
    List.find?_eq_none.mpr (fun c hcmem => by simp [hall c hcmem])
  rw [h1, recheck_false_of_custom_false env custom_path h1]
  simpa [search_tool_eq_find] using h3

/-- Witness for `find_tool_not_found`: the snapshot with no files at all,
the tool `yara` and no custom path. -/
theorem find_tool_not_found_witness :
    file_exists envNoFiles none = false
    ∧ find_tool envNoFiles "yara" none = none :=
  ⟨rfl,
   find_tool_not_found envNoFiles "yara" none rfl (fun _ _ => rfl)⟩

/-- C4: when the custom path does not match (it is `None`, empty, or not an
existing file), `find_tool` returns the first existing file of the fixed
ordered candidate list: every PATH directory with each platform suffix
appended to the tool's base name, then the OS-specific default-location
entries for the tool in their stated order, then the script directory with
each platform suffix. -/
theorem find_tool_search_order (env : Env) (tool_name : String)
    (custom_path : Option String)
    (h : (pyTruthy custom_path && file_exists env custom_path) = false) :
    find_tool env tool_name custom_path
      = (candidate_list env tool_name).find? env.isfile := by
  unfold find_tool
  rw [h, recheck_false_of_custom_false env custom_path h]
  simp [search_tool_eq_find]

/-- Witness for `find_tool_search_order` at `envLin`, the tool `capa` and
no custom path. -/
theorem find_tool_search_order_witness :
    (pyTruthy none && file_exists envLin none) = false
    ∧ find_tool envLin "capa" none
        = (candidate_list envLin "capa").find? envLin.isfile :=
  ⟨rfl, find_tool_search_order envLin "capa" none rfl⟩

/-- C10: the defensive absolute-path re-check of `find_tool` (source lines
170-173) is redundant: any custom path it accepts (truthy, absolute and
existing) was already accepted by the first custom-path check (truthy and
existing), so the function with the re-check removed is extensionally equal
to the original on every tool name, custom path, and host snapshot —
whatever `os.path.isabs` returns. -/
theorem find_tool_recheck_redundant (env : Env) (tool_name : String)
    (custom_path : Option String) :
    find_tool env tool_name custom_path
      = find_tool_no_recheck env tool_name custom_path := by
  unfold find_tool find_tool_no_recheck
  cases h1 : (pyTruthy custom_path && file_exists env custom_path) with
  | true => rfl
  | false =>
    rw [recheck_false_of_custom_false env custom_path h1]
    simp

/-- Helper: a name is in the enabled-filtered name list of a tool dict
exactly when the dict maps it to `true`. -/
theorem enabled_names_mem (l : List (String × Bool)) (t : String) :
    t ∈ (l.filter (fun p => p.2)).map (fun p => p.1) ↔ (t, true) ∈ l := by
  constructor
  · intro h
    rcases List.mem_map.mp h with ⟨⟨a, b⟩, hmem, rfl⟩
    rcases List.mem_filter.mp hmem with ⟨hl, hb⟩
    cases b with
    | true => exact hl
    | false => simp at hb
  · intro h
    exact List.mem_map.mpr ⟨(t, true), List.mem_filter.mpr ⟨h, rfl⟩, rfl⟩

/-- Helper: the enabled-filtered name list is a subsequence of the dict's
key list, so it preserves insertion order. -/
theorem enabled_names_sublist (l : List (String × Bool)) :
    ((l.filter (fun p => p.2)).map (fun p => p.1)).Sublist
      (l.map (fun p => p.1)) :=
  (List.filter_sublist l).map (fun p => p.1)

/-- Helper: with unique keys (as in a Python dict), a name mapped to
`false` is not in the enabled-filtered name list. -/
theorem disabled_not_in_enabled_names (l : List (String × Bool))
    (hnd : (l.map (fun p => p.1)).Nodup) (t : String)
    (hf : (t, false) ∈ l) :
    t ∉ (l.filter (fun p => p.2)).map (fun p => p.1) := by
  intro hmem
  have ht : (t, true) ∈ l := (enabled_names_mem l t).mp hmem
  have heq := List.inj_on_of_nodup_map hnd ht hf rfl
  simp at heq

/-- C5: the Run Plan builder selects exactly the tool entries whose enabled
flag is true, in the insertion order of the configured map, for the static
and the dynamic map alike: the plan's list equals the filtered name list,
is a subsequence of the map's key list (order preservation), a name is in
it exactly when the map enables it, and — with the unique keys of a dict —
a name mapped to false never appears. -/
theorem build_selects_enabled (env : Env) (config : AnalysisConfig) :
    (start_analysis_from_config env config).static_tools
      = (config.static_tools.filter (fun p => p.2)).map (fun p => p.1)
    ∧ ((start_analysis_from_config env config).static_tools).Sublist
        (config.static_tools.map (fun p => p.1))
    ∧ (∀ t, t ∈ (start_analysis_from_config env config).static_tools
        ↔ (t, true) ∈ config.static_tools)
    ∧ ((config.static_tools.map (fun p => p.1)).Nodup →
        ∀ t, (t, false) ∈ config.static_tools →
          t ∉ (start_analysis_from_config env config).static_tools)
    ∧ (start_analysis_from_config env config).dynamic_tools
      = (config.dynamic_tools.filter (fun p => p.2)).map (fun p => p.1)
    ∧ ((start_analysis_from_config env config).dynamic_tools).Sublist
        (config.dynamic_tools.map (fun p => p.1))
    ∧ (∀ t, t ∈ (start_analysis_from_config env config).dynamic_tools
        ↔ (t, true) ∈ config.dynamic_tools)
    ∧ ((config.dynamic_tools.map (fun p => p.1)).Nodup →
        ∀ t, (t, false) ∈ config.dynamic_tools →
          t ∉ (start_analysis_from_config env config).dynamic_tools) :=
  ⟨rfl, enabled_names_sublist _, fun t => enabled_names_mem _ t,
   fun h t hf => disabled_not_in_enabled_names _ h t hf,
   rfl, enabled_names_sublist _, fun t => enabled_names_mem _ t,
   fun h t hf => disabled_not_in_enabled_names _ h t hf⟩

/-- Demonstration configuration with one enabled and one disabled static
tool. -/
def cfgDemo : AnalysisConfig :=
  { paths := [("analysis", "/analysis")]
    static_tools := [("Capa", true), ("Yara", false)]
    dynamic_tools := [("Procmon", false)]
    procmon_settings := { enabled := false, duration := "0", disable_timer := false }
    binary := { path := "/samples/mal.bin", run := false, as_admin := false, bin_pass := "" }
    vm := none }

/-- Witness for `build_selects_enabled`: with `Capa` enabled and `Yara`
disabled, the plan holds `Capa` and not `Yara`. -/
theorem build_selects_enabled_witness :
    "Capa" ∈ (start_analysis_from_config envLin cfgDemo).static_tools
    ∧ "Yara" ∉ (start_analysis_from_config envLin cfgDemo).static_tools :=
  ⟨((build_selects_enabled envLin cfgDemo).2.2.1 "Capa").mpr (by decide),
   (build_selects_enabled envLin cfgDemo).2.2.2.1 (by decide) "Yara" (by decide)⟩

/-- C7: building a Run Plan is idempotent — two calls on the same
configuration and the same host snapshot return identical static and
dynamic invocation lists and an identical summary.  In the embedding the
builder's return value is a pure function of the configuration and the
snapshot; none of the source's side effects (directory creation, status
reporting) influence the returned dict. -/
theorem build_run_plan_idempotent (env1 env2 : Env)
    (c1 c2 : AnalysisConfig) (henv : env1 = env2) (hc : c1 = c2) :
    (start_analysis_from_config env1 c1).static_tools
      = (start_analysis_from_config env2 c2).static_tools
    ∧ (start_analysis_from_config env1 c1).dynamic_tools
      = (start_analysis_from_config env2 c2).dynamic_tools
    ∧ start_analysis_from_config env1 c1 = start_analysis_from_config env2 c2 := by
  subst henv; subst hc; exact ⟨rfl, rfl, rfl⟩

/-- Witness for `build_run_plan_idempotent` at the concrete snapshot and
configuration. -/
theorem build_run_plan_idempotent_witness :
    start_analysis_from_config envLin cfgDemo
      = start_analysis_from_config envLin cfgDemo :=
  (build_run_plan_idempotent envLin envLin cfgDemo cfgDemo rfl rfl).2.2

/-- Configuration with both Process Monitor and Time-Travel-Debugging
enabled in the dynamic-tool map. -/
def cfgBoth : AnalysisConfig :=
  { paths := []
    static_tools := []
    dynamic_tools := [("Procmon", true), ("TTD", true)]
    procmon_settings := { enabled := true, duration := "60", disable_timer := false }
    binary := { path := "/samples/mal.bin", run := true, as_admin := false, bin_pass := "" }
    vm := none }

/-- Counterexample to C1: on a configuration with both `Procmon` and
`TTD` enabled, the built plan holds both as active invocations — it is
false that exactly one of the two is active, and the summary records no
suppression of either. -/
theorem procmon_ttd_both_in_plan :
    (start_analysis_from_config envLin cfgBoth).dynamic_tools = ["Procmon", "TTD"]
    ∧ ¬ (("Procmon" ∈ (start_analysis_from_config envLin cfgBoth).dynamic_tools
          ∧ "TTD" ∉ (start_analysis_from_config envLin cfgBoth).dynamic_tools)
        ∨ ("TTD" ∈ (start_analysis_from_config envLin cfgBoth).dynamic_tools
          ∧ "Procmon" ∉ (start_analysis_from_config envLin cfgBoth).dynamic_tools)) :=
  ⟨rfl, by decide⟩

/-- C1 as amended: the Run Plan builder applies no Procmon/TTD exclusion —
a configuration enabling both yields both as active invocations and no
suppression record — and the mutual exclusion is enforced only in the GUI,
whose handler unchecks the opposite checkbox whenever one of the pair
reaches the checked state, so the two are never checked together after it
runs. -/
theorem procmon_ttd_exclusion_gui_only :
    (∀ (env : Env) (config : AnalysisConfig),
      ("Procmon", true) ∈ config.dynamic_tools →
      ("TTD", true) ∈ config.dynamic_tools →
      "Procmon" ∈ (start_analysis_from_config env config).dynamic_tools
        ∧ "TTD" ∈ (start_analysis_from_config env config).dynamic_tools)
    ∧ (∀ (st : DynamicChecks) (source : String),
        source = "Procmon" ∨ source = "TTD" →
        ((handle_procmon_ttd_exclusion st 2 source).procmon
          && (handle_procmon_ttd_exclusion st 2 source).ttd) = false) := by
  constructor
  · intro env config hp ht
    exact ⟨(enabled_names_mem _ _).mpr hp, (enabled_names_mem _ _).mpr ht⟩
  · intro st source hsrc
    rcases hsrc with rfl | rfl
    · simp [handle_procmon_ttd_exclusion]
    · simp [handle_procmon_ttd_exclusion]

/-- Witness for `procmon_ttd_exclusion_gui_only` at the configuration with
both tools enabled and at the GUI state with both boxes checked. -/
theorem procmon_ttd_exclusion_gui_only_witness :
    "Procmon" ∈ (start_analysis_from_config envLin cfgBoth).dynamic_tools
    ∧ ((handle_procmon_ttd_exclusion ⟨true, true⟩ 2 "TTD").procmon
        && (handle_procmon_ttd_exclusion ⟨true, true⟩ 2 "TTD").ttd) = false :=
  ⟨(procmon_ttd_exclusion_gui_only.1 envLin cfgBoth (by decide) (by decide)).1,
   procmon_ttd_exclusion_gui_only.2 ⟨true, true⟩ "TTD" (Or.inr rfl)⟩

/-- Configuration enabling the single static tool `capa`. -/
def cfgCapa : AnalysisConfig :=
  { paths := []
    static_tools := [("capa", true)]
    dynamic_tools := []
    procmon_settings := { enabled := false, duration := "0", disable_timer := false }
    binary := { path := "/samples/mal.bin", run := false, as_admin := false, bin_pass := "" }
    vm := none }

/-- Counterexample to C6: on the snapshot with no files, resolving `capa`
fails, yet the built plan is identical to the one built on the snapshot
where every file exists, and it carries only the bare tool name — the
builder never invokes the resolver and marks nothing as skipped. -/
theorem builder_ignores_resolution :
    find_tool envNoFiles "capa" none = none
    ∧ start_analysis_from_config envNoFiles cfgCapa
        = start_analysis_from_config envAllFiles cfgCapa
    ∧ (start_analysis_from_config envNoFiles cfgCapa).static_tools = ["capa"] :=
  ⟨by decide, rfl, rfl⟩

/-- C6 as amended: for every enabled tool the builder emits the tool's
name in the corresponding plan list, but it never invokes the Executable
Resolver — its output is identical under every host snapshot, so an
unresolved tool is neither marked skipped nor removed; it appears by name,
indistinguishable from a resolvable one. -/
theorem builder_emits_names_only (env1 env2 : Env)
    (config : AnalysisConfig) (t : String) :
    start_analysis_from_config env1 config = start_analysis_from_config env2 config
    ∧ ((t, true) ∈ config.static_tools →
        t ∈ (start_analysis_from_config env1 config).static_tools)
    ∧ ((t, true) ∈ config.dynamic_tools →
        t ∈ (start_analysis_from_config env1 config).dynamic_tools) :=
  ⟨rfl, fun h => (enabled_names_mem _ _).mpr h,
   fun h => (enabled_names_mem _ _).mpr h⟩

/-- Witness for `builder_emits_names_only`: `capa` is emitted even on the
snapshot where its resolution fails. -/
theorem builder_emits_names_only_witness :
    "capa" ∈ (start_analysis_from_config envNoFiles cfgCapa).static_tools :=
  (builder_emits_names_only envNoFiles envAllFiles cfgCapa "capa").2.1 (by decide)

/-- C8: for every report format outside the supported set, the report
generator fails with the error whose message names the requested format,
and its write set is empty — no partial artifact file is produced by that
call. -/
theorem generate_report_unsupported (analysis_dir : String)
    (results : AnalysisResults) (timestamp fmt : String)
    (h1 : fmt ≠ "json") (h2 : fmt ≠ "markdown") (h3 : fmt ≠ "docx") :
    generate_report analysis_dir results timestamp fmt
      = (Except.error ("Unsupported report format: " ++ fmt), []) := by
  unfold generate_report
  simp [h1, h2, h3]

/-- Concrete analysis results used by the report witnesses. -/
def resultsDemo : AnalysisResults :=
  { binary := some { name := some "mal.bin", path := some "/samples/mal.bin" }
    static_results := [("capa", "ok")]
    dynamic_results := []
    procmon_results := [] }

/-- Witness for `generate_report_unsupported` at the unsupported format
`pdf`. -/
theorem generate_report_unsupported_witness :
    generate_report "/analysis" resultsDemo "20251012_120000" "pdf"
      = (Except.error ("Unsupported report format: " ++ "pdf"), []) :=
  generate_report_unsupported "/analysis" resultsDemo "20251012_120000" "pdf"
    (by decide) (by decide) (by decide)

/-- C9: the Process Monitor command line always carries the quoted
executable, the `/BackingFile` flag with the given capture-file path, and
the `/Quiet` and `/Minimized` flags; the `/LoadConfig` flag with the
config-file path is appended exactly when a config file is passed
(`use_pmc`) and exists on the snapshot. -/
theorem launch_procmon_cmdline_spec (env : Env)
    (procmonexe pml_file : String) (use_pmc : Bool)
    (pmc_file : Option String) :
    ((use_pmc && file_exists env pmc_file) = false →
      launch_procmon env procmonexe pml_file use_pmc pmc_file
        = "\"" ++ procmonexe ++ "\" /BackingFile \"" ++ pml_file
          ++ "\" /Quiet /Minimized")
    ∧ (∀ p, pmc_file = some p → use_pmc = true → env.isfile p = true →
      launch_procmon env procmonexe pml_file use_pmc pmc_file
        = "\"" ++ procmonexe ++ "\" /BackingFile \"" ++ pml_file
          ++ "\" /Quiet /Minimized" ++ " /LoadConfig \"" ++ p ++ "\"") := by
  constructor
  · intro h
    unfold launch_procmon
    rw [h]
    simp
  · rintro p rfl rfl hf
    unfold launch_procmon
    have hc : (true && file_exists env (some p)) = true := by
      simp [file_exists, hf]
    rw [hc]
    simp

/-- Host snapshot on which exactly the Procmon config file
`/cfg/procmon.pmc` exists. -/
def envPmc : Env :=
  { envNoFiles with isfile := fun s => s == "/cfg/procmon.pmc" }

/-- Witness for `launch_procmon_cmdline_spec`: the command line without a
config file, and with an existing one. -/
theorem launch_procmon_cmdline_spec_witness :
    launch_procmon envPmc "/tools/Procmon.exe" "/out/capture.pml" false none
      = "\"" ++ "/tools/Procmon.exe" ++ "\" /BackingFile \""
        ++ "/out/capture.pml" ++ "\" /Quiet /Minimized"
    ∧ launch_procmon envPmc "/tools/Procmon.exe" "/out/capture.pml" true
        (some "/cfg/procmon.pmc")
      = "\"" ++ "/tools/Procmon.exe" ++ "\" /BackingFile \""
        ++ "/out/capture.pml" ++ "\" /Quiet /Minimized"
        ++ " /LoadConfig \"" ++ "/cfg/procmon.pmc" ++ "\"" :=
  ⟨(launch_procmon_cmdline_spec envPmc "/tools/Procmon.exe" "/out/capture.pml"
      false none).1 rfl,
   (launch_procmon_cmdline_spec envPmc "/tools/Procmon.exe" "/out/capture.pml"
      true (some "/cfg/procmon.pmc")).2 "/cfg/procmon.pmc" rfl rfl (by decide)⟩
